import Mathlib

/-!
Verification development for the Intel XGL pipeline-state compiler
(`src/icd/intel/pipeline.c`) and the fence-wait timeout conversion
(`src/icd/intel/fence.c`).

The C code is shallowly embedded: machine integers are modelled as `Nat`
(all quantities involved are non-negative and stay far below 2^31 except
where an explicit `% 2 ^ 64` appears), fatal `assert` failures are
modelled as `Option`/`Except` failure values, and the command buffer is a
capacity/length pair.
-/

namespace IntelPipeline

/-- The set of shader-stage flags (`SHADER_*_FLAG` bits of
`pipeline->active_shaders`).  The C code stores these as a bitmask; only
these six flags are ever set, so a record of six booleans is an exact
model and the C complement `~(SHADER_TESS_CONTROL_FLAG |
SHADER_TESS_EVAL_FLAG)` restricted to defined flags selects the other
four stages. -/
structure ActiveShaders where
  vertex : Bool
  tessControl : Bool
  tessEval : Bool
  geometry : Bool
  fragment : Bool
  compute : Bool
deriving DecidableEq, Repr, Fintype

/-- `XGL_PRIMITIVE_TOPOLOGY` values accepted by `pipeline_build_ia`
(`pipeline.c:61-119`). -/
inductive XglTopology
  | pointList
  | lineList
  | lineStrip
  | triangleList
  | triangleStrip
  | rectList
  | quadList
  | quadStrip
  | lineListAdj
  | lineStripAdj
  | triangleListAdj
  | triangleStripAdj
  | patch
deriving DecidableEq, Repr, Fintype, BEq

/-- The `XGL_RESULT` values this core produces. -/
inductive XglResult
  | success
  | errorBadPipelineData
  | errorOutOfMemory
deriving DecidableEq, Repr

/-- Embedding of `pipeline_validate` (`pipeline.c:149-194`): a pure
function of the active-stage set and the topology, five checks in
source order, each returning `XGL_ERROR_BAD_PIPELINE_DATA`. -/
def pipeline_validate (s : ActiveShaders) (topology : XglTopology) : XglResult :=
  -- if (!(pipeline->active_shaders & SHADER_VERTEX_FLAG))
  if !s.vertex then .errorBadPipelineData
  -- if (((a & TESS_CONTROL) == 0) != ((a & TESS_EVAL) == 0))
  else if (!s.tessControl) != (!s.tessEval) then .errorBadPipelineData
  -- if ((a & COMPUTE) && (a & (VERTEX|TESS_CONTROL|TESS_EVAL|GEOMETRY|FRAGMENT)))
  else if s.compute && (s.vertex || s.tessControl || s.tessEval || s.geometry || s.fragment) then
    .errorBadPipelineData
  -- if (a & (TESS_CONTROL|TESS_EVAL) && topology != XGL_TOPOLOGY_PATCH)
  else if (s.tessControl || s.tessEval) && !(topology == .patch) then .errorBadPipelineData
  -- if (topology == PATCH && (a & ~(TESS_CONTROL|TESS_EVAL))): the
  -- complement of the two tessellation flags covers the other four stages
  else if (topology == .patch) && (s.vertex || s.geometry || s.fragment || s.compute) then
    .errorBadPipelineData
  else .success

/-- The five validator rules exactly as the specification words them, in
the specification's order.  `true` means the rule is violated. -/
def validator_rules (s : ActiveShaders) (t : XglTopology) : List Bool :=
  [ !s.vertex,
    xor s.tessControl s.tessEval,
    s.compute && (s.vertex || s.tessControl || s.tessEval || s.geometry || s.fragment),
    (s.tessControl || s.tessEval) && !(t == .patch),
    (t == .patch) && (s.vertex || s.geometry || s.fragment || s.compute) ]

/-- Specification-side validator: report the bad-pipeline-data error at
the first violated rule, success when no rule is violated. -/
def validator_spec (s : ActiveShaders) (t : XglTopology) : XglResult :=
  match (validator_rules s t).findIdx? (fun b => b) with
  | some _ => .errorBadPipelineData
  | none => .success

/-- C1: `pipeline_validate` is a pure function of the active-stage set
and the topology that checks exactly the five specified rules in order,
returning the bad-pipeline-data error at the first violated rule and
success when none is violated.  Proved by exhausting all 2^6 stage sets
and all 13 topology values. -/
theorem pipeline_validate_five_rules :
    ∀ (s : ActiveShaders) (t : XglTopology), pipeline_validate s t = validator_spec s t := by
  decide

/-- C2 counterexample: the active-stage set consisting of exactly the
two tessellation stages is contained in {tess-control, tess-eval}, yet
`pipeline_validate` rejects it with patch-list topology (rule 1 demands
the vertex stage), so the claimed acceptance condition — and the claimed
existence of a successfully validating patch-list pipeline — is false. -/
theorem patch_tess_only_rejected_cex :
    (let s : ActiveShaders :=
      { vertex := false, tessControl := true, tessEval := true,
        geometry := false, fragment := false, compute := false }
     s.vertex = false ∧ s.geometry = false ∧ s.fragment = false ∧ s.compute = false ∧
       pipeline_validate s .patch = .errorBadPipelineData) := by
  decide

/-- C2 amended: for every input whose topology is patch-list, the
validator rejects the pipeline: rule 1 requires the vertex stage while
rule 5 forbids every stage outside the two tessellation stages, so no
active-stage set validates with patch-list topology. -/
theorem patch_always_rejected :
    ∀ s : ActiveShaders, pipeline_validate s .patch = .errorBadPipelineData := by
  decide

/-- The pipeline command buffer: a static capacity
(`INTEL_PSO_CMD_ENTRIES`, a compile-time constant kept abstract here as
the `cap` field) and the current length in 32-bit words. -/
structure CmdBuf where
  cap : Nat
  len : Nat
deriving DecidableEq, Repr

/-- Embedding of `pipeline_cmd_ptr` (`pipeline.c:35-43`): the assert
`pipeline->cmd_len + cmd_len < INTEL_PSO_CMD_ENTRIES` is a fatal
internal check, modelled as `none`; on success the returned window
starts at the current length and the length advances by `cmd_len`. -/
def pipeline_cmd_ptr (b : CmdBuf) (cmd_len : Nat) : Option (Nat × CmdBuf) :=
  if b.len + cmd_len < b.cap then
    some (b.len, { cap := b.cap, len := b.len + cmd_len })
  else
    none

/-- C3 counterexample: a reservation that would make the length exactly
equal to the capacity (120 + 8 = 128) does not exceed the capacity, yet
`pipeline_cmd_ptr` fails, because the source asserts
`cmd_len + len < INTEL_PSO_CMD_ENTRIES` with a strict comparison. -/
theorem cmd_ptr_at_capacity_fails_cex :
    120 + 8 ≤ 128 ∧ pipeline_cmd_ptr { cap := 128, len := 120 } 8 = none := by
  decide

/-- C3 amended: a reservation of `n` words at length `len` succeeds
exactly when `len + n` is strictly below the static capacity (so a
request making the length exactly equal to the capacity already fails),
in which case the window starts at index `len` and the new length is
`len + n`; every other request fails fatally. -/
theorem pipeline_cmd_ptr_strict (b : CmdBuf) (n : Nat) :
    ((pipeline_cmd_ptr b n).isSome ↔ b.len + n < b.cap) ∧
    (b.cap ≤ b.len + n → pipeline_cmd_ptr b n = none) ∧
    (b.len + n < b.cap →
      pipeline_cmd_ptr b n = some (b.len, { cap := b.cap, len := b.len + n })) := by
  refine ⟨?_, fun h => ?_, fun h => ?_⟩
  · unfold pipeline_cmd_ptr
    split <;> simp_all
  · unfold pipeline_cmd_ptr
    rw [if_neg (by omega)]
  · unfold pipeline_cmd_ptr
    rw [if_pos h]

/-- C3 witness: a concrete in-bounds reservation, via
`pipeline_cmd_ptr_strict`. -/
theorem pipeline_cmd_ptr_strict_witness :
    pipeline_cmd_ptr { cap := 8, len := 3 } 2 = some (3, { cap := 8, len := 5 }) :=
  (pipeline_cmd_ptr_strict { cap := 8, len := 3 } 2).2.2 (by decide)

/-- Row count for one URB entry on the older generation
(`pipeline.c:234-241`): entry size in bytes divided into 128-byte
(1024-bit) rows, rounding up, with a zero result raised to 1.  The
`vs_alloc_size <= 5` assert is checked by the caller
(`pipeline_build_urb_alloc_gen6`). -/
def urb_entry_row_count_gen6 (entry_size : Nat) : Nat :=
  if (entry_size + 128 - 1) / 128 = 0 then 1 else (entry_size + 128 - 1) / 128

/-- Row count for one URB entry on the newer generation
(`pipeline.c:304-310`): entry size in bytes divided into 64-byte
(512-bit) rows, rounding up, with a zero result raised to 1.  The
5 → 6 remap (`pipeline.c:313-314`) is applied by the caller to the
vertex-stage value only. -/
def urb_entry_row_count_gen7 (entry_size : Nat) : Nat :=
  if (entry_size + 64 - 1) / 64 = 0 then 1 else (entry_size + 64 - 1) / 64

/-- Modelled from the spec: row count as the specification words it —
entry size (bytes) divided by a row granularity of `granularity_bytes`
bytes, rounded up, with a zero result raised to 1.  The specification
claims a granularity of 128 bits (16 bytes) for the older generation
and 512 bits (64 bytes) for the newer. -/
def spec_row_count (granularity_bytes entry_size : Nat) : Nat :=
  max 1 ((entry_size + granularity_bytes - 1) / granularity_bytes)

/-- Per-entry URB size in bytes for the vertex stage
(`pipeline.c:208-213`): the larger of the input and output slot counts
times `sizeof(float) * 4`. -/
def vs_entry_bytes (vs_in vs_out : Nat) : Nat :=
  (if vs_in ≥ vs_out then vs_in else vs_out) * 4 * 4

/-- Per-entry URB size in bytes for the geometry stage
(`pipeline.c:210-214`): the output slot count (zero when the stage is
inactive, matching the zero-initialised `pipeline->gs`) times
`sizeof(float) * 4`. -/
def gs_entry_bytes (gs_out : Nat) : Nat := gs_out * 4 * 4

/-- `urb_size` of `pipeline_build_urb_alloc_gen6` (`pipeline.c:200`). -/
def gen6_urb_size (gt : Nat) : Nat := (if gt = 2 then 64 else 32) * 1024

/-- `vs_size` of `pipeline_build_urb_alloc_gen6` (`pipeline.c:216-222`):
half the URB when geometry is active, all of it otherwise. -/
def gen6_vs_size (gt : Nat) (gs_active : Bool) : Nat :=
  if gs_active then gen6_urb_size gt / 2 else gen6_urb_size gt

/-- `gs_size` of `pipeline_build_urb_alloc_gen6` (`pipeline.c:216-222`). -/
def gen6_gs_size (gt : Nat) (gs_active : Bool) : Nat :=
  if gs_active then gen6_urb_size gt / 2 else 0

/-- `vs_alloc_size` of `pipeline_build_urb_alloc_gen6`
(`pipeline.c:234-239`). -/
def gen6_vs_alloc_size (vs_in vs_out : Nat) : Nat :=
  urb_entry_row_count_gen6 (vs_entry_bytes vs_in vs_out)

/-- `gs_alloc_size` of `pipeline_build_urb_alloc_gen6`
(`pipeline.c:235-241`). -/
def gen6_gs_alloc_size (gs_out : Nat) : Nat :=
  urb_entry_row_count_gen6 (gs_entry_bytes gs_out)

/-- `vs_entry_count` of `pipeline_build_urb_alloc_gen6`
(`pipeline.c:245-247`): `(vs_size / 128 / vs_alloc_size) & ~3`, then
clamped down to 256. -/
def gen6_vs_entry_count (gt : Nat) (gs_active : Bool) (vs_in vs_out : Nat) : Nat :=
  if gen6_vs_size gt gs_active / 128 / gen6_vs_alloc_size vs_in vs_out / 4 * 4 > 256 then 256
  else gen6_vs_size gt gs_active / 128 / gen6_vs_alloc_size vs_in vs_out / 4 * 4

/-- `gs_entry_count` of `pipeline_build_urb_alloc_gen6`
(`pipeline.c:251-253`). -/
def gen6_gs_entry_count (gt : Nat) (gs_active : Bool) (gs_out : Nat) : Nat :=
  if gen6_gs_size gt gs_active / 128 / gen6_gs_alloc_size gs_out / 4 * 4 > 256 then 256
  else gen6_gs_size gt gs_active / 128 / gen6_gs_alloc_size gs_out / 4 * 4

/-- Result of `pipeline_build_urb_alloc_gen6`: the computed partition
sizes and the fields of the single 3-word `3DSTATE_URB` command
(`cmd_words` is the reserved word count). -/
structure UrbGen6 where
  urb_size : Nat
  vs_size : Nat
  gs_size : Nat
  vs_alloc_size : Nat
  gs_alloc_size : Nat
  vs_entry_count : Nat
  gs_entry_count : Nat
  cmd_words : Nat
deriving DecidableEq, Repr

/-- Embedding of `pipeline_build_urb_alloc_gen6` (`pipeline.c:196-263`).
Inputs: GT tier, whether the geometry stage is active, the vertex
shader's input/output slot counts and the geometry shader's output slot
count.  The two fatal asserts (`alloc_size <= 5` for both stages,
`vs_entry_count >= 24`) are modelled as `none`. -/
def pipeline_build_urb_alloc_gen6 (gt : Nat) (gs_active : Bool)
    (vs_in vs_out gs_out : Nat) : Option UrbGen6 :=
  if gen6_vs_alloc_size vs_in vs_out ≤ 5 ∧ gen6_gs_alloc_size gs_out ≤ 5 then
    if gen6_vs_entry_count gt gs_active vs_in vs_out ≥ 24 then
      some { urb_size := gen6_urb_size gt,
             vs_size := gen6_vs_size gt gs_active,
             gs_size := gen6_gs_size gt gs_active,
             vs_alloc_size := gen6_vs_alloc_size vs_in vs_out,
             gs_alloc_size := gen6_gs_alloc_size gs_out,
             vs_entry_count := gen6_vs_entry_count gt gs_active vs_in vs_out,
             gs_entry_count := gen6_gs_entry_count gt gs_active gs_out,
             cmd_words := 3 }
    else none
  else none

/-- `urb_size` of `pipeline_build_urb_alloc_gen7` (`pipeline.c:269-270`). -/
def gen7_urb_size (gt : Nat) : Nat :=
  (if gt = 3 then 512 else if gt = 2 then 256 else 128) * 1024

/-- `urb_offset` of `pipeline_build_urb_alloc_gen7` (`pipeline.c:274`):
space reserved for push-constant buffers. -/
def gen7_urb_offset (gt : Nat) : Nat := (if gt = 3 then 32 else 16) * 1024

/-- `vs_size` of `pipeline_build_urb_alloc_gen7` (`pipeline.c:288-294`). -/
def gen7_vs_size (gt : Nat) (gs_active : Bool) : Nat :=
  if gs_active then (gen7_urb_size gt - gen7_urb_offset gt) / 2
  else gen7_urb_size gt - gen7_urb_offset gt

/-- `gs_size` of `pipeline_build_urb_alloc_gen7` (`pipeline.c:288-294`). -/
def gen7_gs_size (gt : Nat) (gs_active : Bool) : Nat :=
  if gs_active then (gen7_urb_size gt - gen7_urb_offset gt) / 2 else 0

/-- `vs_alloc_size` of `pipeline_build_urb_alloc_gen7`
(`pipeline.c:304-314`), including the banking remap of exactly 5 to 6
that the source applies to the vertex stage only. -/
def gen7_vs_alloc_size (vs_in vs_out : Nat) : Nat :=
  if urb_entry_row_count_gen7 (vs_entry_bytes vs_in vs_out) = 5 then 6
  else urb_entry_row_count_gen7 (vs_entry_bytes vs_in vs_out)

/-- `gs_alloc_size` of `pipeline_build_urb_alloc_gen7`
(`pipeline.c:305-310`): no banking remap for the geometry stage. -/
def gen7_gs_alloc_size (gs_out : Nat) : Nat :=
  urb_entry_row_count_gen7 (gs_entry_bytes gs_out)

/-- `vs_entry_count` of `pipeline_build_urb_alloc_gen7` before the
maximum table is applied (`pipeline.c:317`): `(vs_size / 64 /
vs_alloc_size) & ~7`. -/
def gen7_vs_entry_count_raw (gt : Nat) (gs_active : Bool) (vs_in vs_out : Nat) : Nat :=
  gen7_vs_size gt gs_active / 64 / gen7_vs_alloc_size vs_in vs_out / 8 * 8

/-- `gs_entry_count` of `pipeline_build_urb_alloc_gen7` before the
maximum table is applied (`pipeline.c:320`). -/
def gen7_gs_entry_count_raw (gt : Nat) (gs_active : Bool) (gs_out : Nat) : Nat :=
  gen7_gs_size gt gs_active / 64 / gen7_gs_alloc_size gs_out / 8 * 8

/-- `max_vs_entry_count` table of `pipeline_build_urb_alloc_gen7`
(`pipeline.c:322-334`): the 7.5 revision uses one sub-table, earlier
revisions another. -/
def gen7_max_vs_entry_count (is75 : Bool) (gt : Nat) : Nat :=
  if is75 then (if gt ≥ 2 then 1664 else 640) else (if gt = 2 then 704 else 512)

/-- `max_gs_entry_count` table of `pipeline_build_urb_alloc_gen7`
(`pipeline.c:325-335`). -/
def gen7_max_gs_entry_count (is75 : Bool) (gt : Nat) : Nat :=
  if is75 then (if gt ≥ 2 then 640 else 256) else (if gt = 2 then 320 else 192)

/-- Result of `pipeline_build_urb_alloc_gen7`: partition data and the
fields of the four 2-word `3DSTATE_URB_{VS,GS,HS,DS}` commands. -/
structure UrbGen7 where
  urb_size : Nat
  vs_size : Nat
  gs_size : Nat
  vs_alloc_size : Nat
  gs_alloc_size : Nat
  vs_entry_count : Nat
  gs_entry_count : Nat
  cmd_words : Nat
deriving DecidableEq, Repr

/-- Embedding of `pipeline_build_urb_alloc_gen7` (`pipeline.c:265-364`).
`is75` selects the `intel_gpu_gen(gpu) >= INTEL_GEN(7.5)` branch of the
maximum-entry-count tables.  The fatal assert `vs_entry_count >= 32` is
modelled as `none`. -/
def pipeline_build_urb_alloc_gen7 (is75 : Bool) (gt : Nat) (gs_active : Bool)
    (vs_in vs_out gs_out : Nat) : Option UrbGen7 :=
  if gen7_vs_entry_count_raw gt gs_active vs_in vs_out ≥ 32 then
    some { urb_size := gen7_urb_size gt,
           vs_size := gen7_vs_size gt gs_active,
           gs_size := gen7_gs_size gt gs_active,
           vs_alloc_size := gen7_vs_alloc_size vs_in vs_out,
           gs_alloc_size := gen7_gs_alloc_size gs_out,
           vs_entry_count :=
             if gen7_vs_entry_count_raw gt gs_active vs_in vs_out ≥
                 gen7_max_vs_entry_count is75 gt then
               gen7_max_vs_entry_count is75 gt
             else gen7_vs_entry_count_raw gt gs_active vs_in vs_out,
           gs_entry_count :=
             if gen7_gs_entry_count_raw gt gs_active gs_out ≥
                 gen7_max_gs_entry_count is75 gt then
               gen7_max_gs_entry_count is75 gt
             else gen7_gs_entry_count_raw gt gs_active gs_out,
           cmd_words := 8 }
  else none

/-- C4: on the older generation with GT tier 2 the total URB capacity
is 64 KiB; with the geometry stage active the vertex and geometry
partitions each receive 32 KiB, otherwise the vertex partition receives
the whole 64 KiB and geometry receives zero; and every emitted vertex
entry count is a multiple of 4, at most 256, and at least 24. -/
theorem urb_alloc_gen6_gt2_bounds (gs_active : Bool) (vs_in vs_out gs_out : Nat)
    (r : UrbGen6)
    (h : pipeline_build_urb_alloc_gen6 2 gs_active vs_in vs_out gs_out = some r) :
    r.urb_size = 64 * 1024 ∧
    r.vs_size = (if gs_active then 32 * 1024 else 64 * 1024) ∧
    r.gs_size = (if gs_active then 32 * 1024 else 0) ∧
    r.vs_entry_count % 4 = 0 ∧ r.vs_entry_count ≤ 256 ∧ 24 ≤ r.vs_entry_count := by
  unfold pipeline_build_urb_alloc_gen6 at h
  split at h
  · split at h
    case isTrue hcount =>
      injection h with h
      subst h
      refine ⟨by norm_num [gen6_urb_size], ?_, ?_, ?_, ?_, hcount⟩
      · show gen6_vs_size 2 gs_active = _
        cases gs_active <;> norm_num [gen6_vs_size, gen6_urb_size]
      · show gen6_gs_size 2 gs_active = _
        cases gs_active <;> norm_num [gen6_gs_size, gen6_urb_size]
      · show gen6_vs_entry_count 2 gs_active vs_in vs_out % 4 = 0
        unfold gen6_vs_entry_count
        split <;> omega
      · show gen6_vs_entry_count 2 gs_active vs_in vs_out ≤ 256
        unfold gen6_vs_entry_count
        split <;> omega
    case isFalse _ => exact absurd h (by simp)
  · exact absurd h (by simp)

/-- C4 witness: a concrete successful gen6 allocation (GT tier 2,
geometry active, vertex shader with 2 inputs and 4 outputs), via
`urb_alloc_gen6_gt2_bounds`. -/
theorem urb_alloc_gen6_gt2_bounds_witness :
    pipeline_build_urb_alloc_gen6 2 true 2 4 1 =
      some { urb_size := 65536, vs_size := 32768, gs_size := 32768,
             vs_alloc_size := 1, gs_alloc_size := 1,
             vs_entry_count := 256, gs_entry_count := 256, cmd_words := 3 } ∧
    24 ≤ (256 : Nat) ∧ (256 : Nat) % 4 = 0 :=
  ⟨by decide,
   (urb_alloc_gen6_gt2_bounds true 2 4 1
     { urb_size := 65536, vs_size := 32768, gs_size := 32768,
       vs_alloc_size := 1, gs_alloc_size := 1,
       vs_entry_count := 256, gs_entry_count := 256, cmd_words := 3 }
     (by decide)).2.2.2.2.2,
   (urb_alloc_gen6_gt2_bounds true 2 4 1
     { urb_size := 65536, vs_size := 32768, gs_size := 32768,
       vs_alloc_size := 1, gs_alloc_size := 1,
       vs_entry_count := 256, gs_entry_count := 256, cmd_words := 3 }
     (by decide)).2.2.2.1⟩

/-- C5 counterexample.  Two concrete refutations of the claim as
stated.  (a) Older generation: a 32-byte entry (two slots) yields a
code row count of 1, while "entry size divided into 128-bit (16-byte)
rows, rounded up" would give 2 — the code's granularity is 1024-bit
(128-byte) rows, per its own comment.  (b) Newer generation: the claim
says a row count of exactly 5 is remapped to 6 for every per-stage
entry size, but for a geometry entry of 320 bytes (gs row count 5) the
emitted geometry row count stays 5 — only the vertex stage is
remapped. -/
theorem urb_row_count_cex :
    urb_entry_row_count_gen6 32 = 1 ∧ spec_row_count 16 32 = 2 ∧
    (pipeline_build_urb_alloc_gen7 true 2 true 0 4 20).map UrbGen7.gs_alloc_size =
      some 5 := by
  decide

/-- C5 amended: row counts are computed by dividing the entry size in
bytes into 128-byte (1024-bit) rows on the older generation and 64-byte
(512-bit) rows on the newer, rounding up, with a zero result raised
to 1; on the older generation both per-stage row counts of every
successful allocation lie in the legal range 1–5 (larger values are
fatal); on the newer generation the remap of exactly 5 to 6 applies to
the vertex-stage row count only (which therefore is never 5), while the
geometry-stage row count is left unremapped. -/
theorem urb_row_count_amended (e : Nat) :
    urb_entry_row_count_gen6 e = spec_row_count 128 e ∧
    urb_entry_row_count_gen7 e = spec_row_count 64 e ∧
    1 ≤ urb_entry_row_count_gen6 e ∧ 1 ≤ urb_entry_row_count_gen7 e ∧
    (∀ (gt : Nat) (ga : Bool) (vin vout gout : Nat) (r : UrbGen6),
      pipeline_build_urb_alloc_gen6 gt ga vin vout gout = some r →
        1 ≤ r.vs_alloc_size ∧ r.vs_alloc_size ≤ 5 ∧
        1 ≤ r.gs_alloc_size ∧ r.gs_alloc_size ≤ 5) ∧
    (∀ (is75 : Bool) (gt : Nat) (ga : Bool) (vin vout gout : Nat) (r : UrbGen7),
      pipeline_build_urb_alloc_gen7 is75 gt ga vin vout gout = some r →
        r.vs_alloc_size =
          (if urb_entry_row_count_gen7 (vs_entry_bytes vin vout) = 5 then 6
           else urb_entry_row_count_gen7 (vs_entry_bytes vin vout)) ∧
        r.vs_alloc_size ≠ 5 ∧
        r.gs_alloc_size = urb_entry_row_count_gen7 (gs_entry_bytes gout)) := by
  refine ⟨?_, ?_, ?_, ?_, ?_, ?_⟩
  · unfold urb_entry_row_count_gen6 spec_row_count
    rw [Nat.max_def]
    split <;> split <;> omega
  · unfold urb_entry_row_count_gen7 spec_row_count
    rw [Nat.max_def]
    split <;> split <;> omega
  · unfold urb_entry_row_count_gen6
    split <;> omega
  · unfold urb_entry_row_count_gen7
    split <;> omega
  · intro gt ga vin vout gout r h
    unfold pipeline_build_urb_alloc_gen6 at h
    split at h
    case isTrue hguard =>
      split at h
      · injection h with h
        subst h
        refine ⟨?_, hguard.1, ?_, hguard.2⟩
        · show 1 ≤ gen6_vs_alloc_size vin vout
          unfold gen6_vs_alloc_size urb_entry_row_count_gen6
          split <;> omega
        · show 1 ≤ gen6_gs_alloc_size gout
          unfold gen6_gs_alloc_size urb_entry_row_count_gen6
          split <;> omega
      · exact absurd h (by simp)
    case isFalse _ => exact absurd h (by simp)
  · intro is75 gt ga vin vout gout r h
    unfold pipeline_build_urb_alloc_gen7 at h
    split at h
    · injection h with h
      subst h
      refine ⟨rfl, ?_, rfl⟩
      show gen7_vs_alloc_size vin vout ≠ 5
      unfold gen7_vs_alloc_size
      split
      · omega
      · assumption
    · exact absurd h (by simp)

/-- C5 witness: a concrete successful allocation on the older
generation, via `urb_row_count_amended`. -/
theorem urb_row_count_amended_witness :
    pipeline_build_urb_alloc_gen6 2 false 1 1 0 =
      some { urb_size := 65536, vs_size := 65536, gs_size := 0,
             vs_alloc_size := 1, gs_alloc_size := 1,
             vs_entry_count := 256, gs_entry_count := 0, cmd_words := 3 } ∧
    1 ≤ (1 : Nat) ∧ (1 : Nat) ≤ 5 :=
  ⟨by decide,
   ((urb_row_count_amended 0).2.2.2.2.1 2 false 1 1 0
     { urb_size := 65536, vs_size := 65536, gs_size := 0,
       vs_alloc_size := 1, gs_alloc_size := 1,
       vs_entry_count := 256, gs_entry_count := 0, cmd_words := 3 }
     (by decide)).1,
   ((urb_row_count_amended 0).2.2.2.2.1 2 false 1 1 0
     { urb_size := 65536, vs_size := 65536, gs_size := 0,
       vs_alloc_size := 1, gs_alloc_size := 1,
       vs_entry_count := 256, gs_entry_count := 0, cmd_words := 3 }
     (by decide)).2.1⟩

/-- One `3DSTATE_PUSH_CONSTANT_ALLOC_*` command.  Each command is two
words; `dw0` carries the render-command opcode (an external `genhw`
constant, kept symbolic) and `dw1` packs the two recorded fields:
`offsetField` is the value shifted into
`GEN7_PCB_ALLOC_ANY_DW1_OFFSET__SHIFT` and `sizeField` the value shifted
into `GEN7_PCB_ALLOC_ANY_DW1_SIZE__SHIFT`, both in KiB units. -/
structure PcbCmd where
  offsetField : Nat
  sizeField : Nat
deriving DecidableEq, Repr

/-- Embedding of `pipeline_build_push_const_alloc_gen7`
(`pipeline.c:366-443`).  Returns the number of words reserved from the
sink (`cmd_len * 5`) and the five commands in emission order (VS, PS,
HS, DS, GS).  The three defensive-clamp asserts are fatal internal
checks, modelled as `none` (none can fire: all inputs are the
compile-time constants `offset = 0`, `size = 8192`). -/
def pipeline_build_push_const_alloc_gen7 : Option (Nat × List PcbCmd) :=
  let offset0 := 0
  let size0 := 8192
  let end_kb := (offset0 + size0) / 1024
  -- if (end > 16) { assert(!"invalid constant buffer end"); ... }
  if end_kb > 16 then none
  else
    let offset_kb := (offset0 + 1023) / 1024
    -- if (offset > 15) { assert(!"invalid constant buffer offset"); ... }
    if offset_kb > 15 then none
    else
      -- if (offset > end) { assert(!size); offset = end; }
      if offset_kb > end_kb ∧ size0 ≠ 0 then none
      else
        let offset_kb := if offset_kb > end_kb then end_kb else offset_kb
        let size_kb := end_kb - offset_kb
        -- if (size > 15) { assert(!"invalid constant buffer size"); ... }
        if size_kb > 15 then none
        else
          some (2 * 5,
            [ { offsetField := offset_kb, sizeField := size_kb },
              { offsetField := size_kb, sizeField := size_kb },
              { offsetField := 0, sizeField := 0 },
              { offsetField := 0, sizeField := 0 },
              { offsetField := 0, sizeField := 0 } ])

/-- C6: the newer generation's push-constant allocator always emits
exactly five two-word commands (10 words reserved) for the VS, PS, HS,
DS and GS stages; the vertex command encodes offset 0 and size 8 KiB,
the hull/domain/geometry commands are all-zero, and the fragment
command carries `end-of-window-in-KiB − rounded-start-offset-in-KiB`
(= 8) in both its offset field and its size field. -/
theorem push_const_alloc_gen7_layout :
    pipeline_build_push_const_alloc_gen7 =
      some (2 * 5,
        [ { offsetField := 0, sizeField := 8 },
          { offsetField := 8, sizeField := 8 },
          { offsetField := 0, sizeField := 0 },
          { offsetField := 0, sizeField := 0 },
          { offsetField := 0, sizeField := 0 } ]) ∧
    (0 + 8192) / 1024 - (0 + 1023) / 1024 = 8 := by
  decide

/-- `GEN6_VFCOMP_*` component store-mode codes used in
`VERTEX_ELEMENT_STATE` second words (`genhw` constants, kept
symbolic). -/
inductive VfComp
  | nostore
  | storeSrc
  | store0
  | store1Fp
  | store1Int
  | storeVid
  | storeIid
deriving DecidableEq, Repr

/-- Embedding of the component store-mode computation of
`pipeline_build_vertex_elements` (`pipeline.c:476-489`): components
default to `STORE_0` with component 3 defaulting to the integer or
floating-point encoding of one, then the fall-through switch on the
format's channel count overwrites components 0..count−1 with
`STORE_SRC`.  The list holds components 0,1,2,3 in order. -/
def vertex_element_comps (channel_count : Nat) (is_int : Bool) : List VfComp :=
  let c3 := if is_int then VfComp.store1Int else VfComp.store1Fp
  match channel_count with
  | 4 => [.storeSrc, .storeSrc, .storeSrc, .storeSrc]
  | 3 => [.storeSrc, .storeSrc, .storeSrc, c3]
  | 2 => [.storeSrc, .storeSrc, .store0, c3]
  | 1 => [.storeSrc, .store0, .store0, c3]
  | _ => [.store0, .store0, .store0, c3]

/-- Component `i` of the second word's store-mode descriptor. -/
def vertex_element_comp (channel_count : Nat) (is_int : Bool) (i : Nat) : VfComp :=
  (vertex_element_comps channel_count is_int).getD i .nostore

/-- C7: for every declared attribute whose format has channel count
`cc ∈ 1..4`, the emitted store-mode descriptor stores "copy from
source" in components 0..cc−1; each remaining component among 0–2
stores constant 0; and component 3 (when cc < 4) stores constant 1 in
the integer encoding for integer formats and the floating-point
encoding otherwise.  The claim's two particular cases (cc = 3
non-integer and cc = 1) are instances. -/
theorem vertex_element_store_modes (cc : Nat) (h1 : 1 ≤ cc) (h2 : cc ≤ 4) :
    ∀ (is_int : Bool) (i : Fin 4),
      (i.val < cc → vertex_element_comp cc is_int i.val = .storeSrc) ∧
      (cc ≤ i.val → i.val ≤ 2 → vertex_element_comp cc is_int i.val = .store0) ∧
      (cc < 4 → i.val = 3 → vertex_element_comp cc is_int i.val =
        (if is_int then .store1Int else .store1Fp)) := by
  interval_cases cc <;> decide

/-- C7 witness: channel count 3, non-integer format — components 0–2
are "store source" and component 3 is "store constant 1 (float)" — via
`vertex_element_store_modes`. -/
theorem vertex_element_store_modes_witness :
    vertex_element_comp 3 false 0 = .storeSrc ∧
    vertex_element_comp 3 false 3 = .store1Fp :=
  ⟨(vertex_element_store_modes 3 (by decide) (by decide) false 0).1 (by decide),
   by
    have h := (vertex_element_store_modes 3 (by decide) (by decide) false 3).2.2
      (by decide) (by decide)
    simpa using h⟩

/-- `XGL_PIPELINE_SHADER_STAGE` enumerators dispatched on by
`pipeline_create_info_init` (`pipeline.c:688-707`).  The compute stage
falls into the switch's `default` arm there. -/
inductive ShaderStage
  | vertex
  | tessControl
  | tessEval
  | geometry
  | fragment
  | compute
deriving DecidableEq, Repr

/-- `XGL_PIPELINE_IA_STATE_CREATE_INFO` payload: the fields
`pipeline_build_ia` reads (`pipeline.c:45-128`). -/
structure IaState where
  topology : XglTopology := .pointList
  disableVertexReuse : Bool := false
  provokingVertexFirst : Bool := true
  primitiveRestartEnable : Bool := false
  primitiveRestartIndex : Nat := 0
deriving DecidableEq, Repr

/-- One `XGL_VERTEX_INPUT_ATTRIBUTE_DESCRIPTION` together with the
format properties the encoder queries from the external
format-description collaborator (`icd_format_get_channel_count`,
`icd_format_is_int`, `intel_format_translate_color` live outside this
core). -/
structure VertexAttr where
  binding : Nat := 0
  offsetInBytes : Nat := 0
  formatChannels : Nat := 0
  formatIsInt : Bool := false
  formatCode : Nat := 0
deriving DecidableEq, Repr

/-- `XGL_PIPELINE_VERTEX_INPUT_CREATE_INFO` payload.  The C structure
holds a count and a pointer for each of bindings and attributes; the
attribute array is modelled as a list whose length is the attribute
count, the binding descriptions themselves are not read by the core
beyond being copied. -/
structure ViState where
  bindingCount : Nat := 0
  attrs : List VertexAttr := []
deriving DecidableEq, Repr

/-- `XGL_PIPELINE_DB_STATE_CREATE_INFO` payload (only the format field
is consumed, `pipeline.c:628`). -/
structure DbState where
  format : Nat := 0
deriving DecidableEq, Repr

/-- `XGL_PIPELINE_CB_STATE_CREATE_INFO` payload, copied verbatim into
the pipeline object (`pipeline.c:629`); its contents are kept as an
opaque word. -/
structure CbState where
  payload : Nat := 0
deriving DecidableEq, Repr

/-- `XGL_PIPELINE_RS_STATE_CREATE_INFO` payload: the fields
`pipeline_rs_state` copies (`pipeline.c:131-138`).  `pointSize` is a C
float; its bit pattern is carried as an opaque `Nat`. -/
structure RsState where
  depthClipEnable : Bool := false
  rasterizerDiscardEnable : Bool := false
  pointSizeBits : Nat := 0
deriving DecidableEq, Repr

/-- `XGL_PIPELINE_TESS_STATE_CREATE_INFO` payload
(`patchControlPoints`, read by `pipeline_build_ia` for patch
topology). -/
structure TessState where
  patchControlPoints : Nat := 0
deriving DecidableEq, Repr

/-- `XGL_PIPELINE_SHADER` payload of a shader-stage fragment.
`shader` models the shader object handle (0 = `XGL_NULL_HANDLE`).  The
input/output slot counts and special-value usage bits are what the
external shader-resolution collaborator (`pipeline_build_shaders`,
outside src/) later derives for the stage; they are carried here so the
build model can consume them. -/
structure ShaderInfo where
  stage : ShaderStage := .vertex
  shader : Nat := 0
  inCount : Nat := 0
  outCount : Nat := 0
  usesVid : Bool := false
  usesIid : Bool := false
deriving DecidableEq, Repr

/-- Compute-pipeline payload (`XGL_COMPUTE_PIPELINE_CREATE_INFO`),
copied into `info->compute` and otherwise unused by the graphics
path. -/
structure ComputeState where
  payload : Nat := 0
deriving DecidableEq, Repr

/-- One node of the create-info chain
(`intel_pipeline_create_info_header`, `pipeline.c:636-639`): a
structure-type tag plus that tag's payload.  `unknown` stands for any
`XGL_STRUCTURE_TYPE` outside the nine recognized tags. -/
inductive Fragment
  | graphics
  | vi (s : ViState)
  | ia (s : IaState)
  | db (s : DbState)
  | cb (s : CbState)
  | rs (s : RsState)
  | tess (s : TessState)
  | shader (s : ShaderInfo)
  | compute (s : ComputeState)
  | unknown (tag : Nat)
deriving DecidableEq, Repr

/-- The normalized pipeline descriptor
(`struct intel_pipeline_create_info`), one slot per recognized tag,
with the shader-stage tag split into five per-stage slots. -/
structure CreateInfo where
  hasGraphics : Bool
  vi : ViState
  ia : IaState
  db : DbState
  cb : CbState
  rs : RsState
  tess : TessState
  vs : ShaderInfo
  tcs : ShaderInfo
  tes : ShaderInfo
  gs : ShaderInfo
  fs : ShaderInfo
  compute : ComputeState
deriving DecidableEq, Repr

/-- The `memset(info, 0, sizeof(*info))` zero initialisation
(`pipeline.c:644`). -/
def CreateInfo.zero : CreateInfo :=
  { hasGraphics := false, vi := {}, ia := {}, db := {}, cb := {}, rs := {},
    tess := {}, vs := {}, tcs := {}, tes := {}, gs := {}, fs := {}, compute := {} }

/-- One iteration of the `pipeline_create_info_init` walk
(`pipeline.c:646-722`): dispatch on the node's structure type, copy the
payload over the destination slot; a shader-stage node additionally
dispatches on the embedded stage enumerator.  An unrecognized structure
type, or an unrecognized (or compute) stage enumerator, fails with
`XGL_ERROR_BAD_PIPELINE_DATA`. -/
def applyFragment (info : CreateInfo) : Fragment → Except XglResult CreateInfo
  | .graphics => .ok { info with hasGraphics := true }
  | .vi s => .ok { info with vi := s }
  | .ia s => .ok { info with ia := s }
  | .db s => .ok { info with db := s }
  | .cb s => .ok { info with cb := s }
  | .rs s => .ok { info with rs := s }
  | .tess s => .ok { info with tess := s }
  | .shader s =>
    match s.stage with
    | .vertex => .ok { info with vs := s }
    | .tessControl => .ok { info with tcs := s }
    | .tessEval => .ok { info with tes := s }
    | .geometry => .ok { info with gs := s }
    | .fragment => .ok { info with fs := s }
    | .compute => .error .errorBadPipelineData
  | .compute s => .ok { info with compute := s }
  | .unknown _ => .error .errorBadPipelineData

/-- Embedding of `pipeline_create_info_init` (`pipeline.c:641-725`):
zero the descriptor, then walk the chain head-to-tail, each recognized
node overwriting its slot. -/
def pipeline_create_info_init (chain : List Fragment) : Except XglResult CreateInfo :=
  chain.foldlM applyFragment CreateInfo.zero

/-- A fragment the assembler recognizes: any tag other than `unknown`,
and for shader-stage fragments any stage enumerator the switch handles
(everything except compute, which falls to `default`). -/
def recognized : Fragment → Bool
  | .shader s => s.stage != .compute
  | .unknown _ => false
  | _ => true

/-- The value a slot ends with after the walk: the payload of the last
fragment in chain order that `get` recognizes for that slot, or the
initial value `d` when there is none. -/
def lastSlot (get : Fragment → Option α) (d : α) (l : List Fragment) : α :=
  l.foldl (fun acc f => (get f).getD acc) d

def viOf : Fragment → Option ViState
  | .vi s => some s
  | _ => none

def iaOf : Fragment → Option IaState
  | .ia s => some s
  | _ => none

def dbOf : Fragment → Option DbState
  | .db s => some s
  | _ => none

def cbOf : Fragment → Option CbState
  | .cb s => some s
  | _ => none

def rsOf : Fragment → Option RsState
  | .rs s => some s
  | _ => none

def tessOf : Fragment → Option TessState
  | .tess s => some s
  | _ => none

def computeOf : Fragment → Option ComputeState
  | .compute s => some s
  | _ => none

def graphicsOf : Fragment → Option Bool
  | .graphics => some true
  | _ => none

def shaderOf (st : ShaderStage) : Fragment → Option ShaderInfo
  | .shader s => if s.stage = st then some s else none
  | _ => none

/-- Helper for C10: the assembler's fold, started from any descriptor,
succeeds on a chain of recognized fragments and fills every slot with
the last payload of that slot's tag (last-wins overwrite). -/
theorem info_init_foldl_last_wins (chain : List Fragment) :
    ∀ info0 : CreateInfo, (∀ f ∈ chain, recognized f = true) →
      chain.foldlM applyFragment info0 = .ok
        { hasGraphics := lastSlot graphicsOf info0.hasGraphics chain,
          vi := lastSlot viOf info0.vi chain,
          ia := lastSlot iaOf info0.ia chain,
          db := lastSlot dbOf info0.db chain,
          cb := lastSlot cbOf info0.cb chain,
          rs := lastSlot rsOf info0.rs chain,
          tess := lastSlot tessOf info0.tess chain,
          vs := lastSlot (shaderOf .vertex) info0.vs chain,
          tcs := lastSlot (shaderOf .tessControl) info0.tcs chain,
          tes := lastSlot (shaderOf .tessEval) info0.tes chain,
          gs := lastSlot (shaderOf .geometry) info0.gs chain,
          fs := lastSlot (shaderOf .fragment) info0.fs chain,
          compute := lastSlot computeOf info0.compute chain } := by
  induction chain with
  | nil => intro info0 _; rfl
  | cons f rest ih =>
    intro info0 h
    have hf : recognized f = true := h f (List.mem_cons_self f rest)
    have hrest : ∀ g ∈ rest, recognized g = true :=
      fun g hg => h g (List.mem_cons_of_mem f hg)
    cases f with
    | graphics => exact ih { info0 with hasGraphics := true } hrest
    | vi s => exact ih { info0 with vi := s } hrest
    | ia s => exact ih { info0 with ia := s } hrest
    | db s => exact ih { info0 with db := s } hrest
    | cb s => exact ih { info0 with cb := s } hrest
    | rs s => exact ih { info0 with rs := s } hrest
    | tess s => exact ih { info0 with tess := s } hrest
    | compute s => exact ih { info0 with compute := s } hrest
    | unknown tag => simp [recognized] at hf
    | shader s =>
      obtain ⟨st, sh, ic, oc, uv, ui⟩ := s
      cases st with
      | vertex => exact ih { info0 with vs := ⟨.vertex, sh, ic, oc, uv, ui⟩ } hrest
      | tessControl => exact ih { info0 with tcs := ⟨.tessControl, sh, ic, oc, uv, ui⟩ } hrest
      | tessEval => exact ih { info0 with tes := ⟨.tessEval, sh, ic, oc, uv, ui⟩ } hrest
      | geometry => exact ih { info0 with gs := ⟨.geometry, sh, ic, oc, uv, ui⟩ } hrest
      | fragment => exact ih { info0 with fs := ⟨.fragment, sh, ic, oc, uv, ui⟩ } hrest
      | compute => simp [recognized] at hf

/-- C10: a chain of recognized fragments — duplicates of a tag (or of a
shader-stage enumerator) included — always assembles successfully, and
every descriptor slot holds the payload of the last fragment for its
tag in chain order, the zero-initialised default when the tag never
occurs. -/
theorem pipeline_create_info_init_last_wins (chain : List Fragment)
    (h : ∀ f ∈ chain, recognized f = true) :
    pipeline_create_info_init chain = .ok
      { hasGraphics := lastSlot graphicsOf false chain,
        vi := lastSlot viOf {} chain,
        ia := lastSlot iaOf {} chain,
        db := lastSlot dbOf {} chain,
        cb := lastSlot cbOf {} chain,
        rs := lastSlot rsOf {} chain,
        tess := lastSlot tessOf {} chain,
        vs := lastSlot (shaderOf .vertex) {} chain,
        tcs := lastSlot (shaderOf .tessControl) {} chain,
        tes := lastSlot (shaderOf .tessEval) {} chain,
        gs := lastSlot (shaderOf .geometry) {} chain,
        fs := lastSlot (shaderOf .fragment) {} chain,
        compute := lastSlot computeOf {} chain } :=
  info_init_foldl_last_wins chain CreateInfo.zero h

/-- C10 witness: a chain with two input-assembly fragments and two
vertex-stage shader fragments assembles successfully and both slots
hold the second (later) payload, via
`pipeline_create_info_init_last_wins`. -/
theorem pipeline_create_info_init_last_wins_witness :
    pipeline_create_info_init
      [ .ia { topology := .triangleList },
        .shader { stage := .vertex, shader := 1 },
        .ia { topology := .lineList },
        .shader { stage := .vertex, shader := 2 } ] =
      .ok { CreateInfo.zero with
              ia := { topology := .lineList },
              vs := { stage := .vertex, shader := 2 } } := by
  have h := pipeline_create_info_init_last_wins
    [ .ia { topology := .triangleList },
      .shader { stage := .vertex, shader := 1 },
      .ia { topology := .lineList },
      .shader { stage := .vertex, shader := 2 } ] (by decide)
  rw [h]
  rfl

/-- Failure classes of a build: `user` carries an `XGL_RESULT` error
returned to the caller, `fatal` models an `assert` firing (an internal
invariant violation, not surfaced as a recoverable error). -/
inductive BuildFail
  | user (e : XglResult)
  | fatal
deriving DecidableEq, Repr

/-- Reserve `n` words from the sink inside the build monad; the error
value carries the number of words emitted at the moment of failure. -/
def reserveWords (b : CmdBuf) (n : Nat) : Except (BuildFail × Nat) CmdBuf :=
  match pipeline_cmd_ptr b n with
  | some (_, b2) => .ok b2
  | none => .error (.fatal, b.len)

/-- Modelled from the spec: `pipeline_build_shaders` (declared in
`pipeline_priv.h`, implemented outside src/) resolves each declared
shader stage and records the active-stage bit-set; per the spec it is
invoked once per stage before encoding, and a stage is active exactly
when its shader slot was populated (non-null handle).  The compute flag
is never set on the graphics path. -/
def pipeline_build_shaders (info : CreateInfo) : ActiveShaders :=
  { vertex := info.vs.shader != 0,
    tessControl := info.tcs.shader != 0,
    tessEval := info.tes.shader != 0,
    geometry := info.gs.shader != 0,
    fragment := info.fs.shader != 0,
    compute := false }

/-- Word count of the `3DSTATE_VERTEX_ELEMENTS` command
(`pipeline.c:456-458`): one header word plus two words per declared
attribute, plus two for the synthetic element when the vertex shader
consumes the vertex-index or instance-index special value. -/
def ve_cmd_len (info : CreateInfo) (active : ActiveShaders) : Nat :=
  1 + 2 * info.vi.attrs.length +
    (if active.vertex && (info.vs.usesVid || info.vs.usesIid) then 2 else 0)

/-- Sink interaction of `pipeline_build_vertex_elements`
(`pipeline.c:445-522`): a command length of 1 (no attributes, no
special values) emits nothing at all; otherwise the command is reserved
and each attribute's `offsetInBytes <= 2047` assert is a fatal check. -/
def pipeline_build_vertex_elements_step (info : CreateInfo) (active : ActiveShaders)
    (b : CmdBuf) : Except (BuildFail × Nat) CmdBuf :=
  if ve_cmd_len info active = 1 then .ok b
  else
    match pipeline_cmd_ptr b (ve_cmd_len info active) with
    | none => .error (.fatal, b.len)
    | some (_, b2) =>
      if info.vi.attrs.all (fun a => decide (a.offsetInBytes ≤ 2047)) then .ok b2
      else .error (.fatal, b2.len)

/-- Sink interaction of `pipeline_build_urb_alloc_gen6` inside the
build: the allocation's asserts fire before the 3-word reservation. -/
def urb_gen6_step (gt : Nat) (info : CreateInfo) (active : ActiveShaders)
    (b : CmdBuf) : Except (BuildFail × Nat) CmdBuf :=
  let vin := if active.vertex then info.vs.inCount else 0
  let vout := if active.vertex then info.vs.outCount else 0
  let gout := if active.geometry then info.gs.outCount else 0
  match pipeline_build_urb_alloc_gen6 gt active.geometry vin vout gout with
  | none => .error (.fatal, b.len)
  | some r => reserveWords b r.cmd_words

/-- Sink interaction of `pipeline_build_urb_alloc_gen7` inside the
build: the allocation's assert fires before the 8-word reservation. -/
def urb_gen7_step (is75 : Bool) (gt : Nat) (info : CreateInfo) (active : ActiveShaders)
    (b : CmdBuf) : Except (BuildFail × Nat) CmdBuf :=
  let vin := if active.vertex then info.vs.inCount else 0
  let vout := if active.vertex then info.vs.outCount else 0
  let gout := if active.geometry then info.gs.outCount else 0
  match pipeline_build_urb_alloc_gen7 is75 gt active.geometry vin vout gout with
  | none => .error (.fatal, b.len)
  | some r => reserveWords b r.cmd_words

/-- Sink interaction of `pipeline_build_push_const_alloc_gen7` inside
the build: the clamp asserts fire before the 10-word reservation. -/
def push_const_step (b : CmdBuf) : Except (BuildFail × Nat) CmdBuf :=
  match pipeline_build_push_const_alloc_gen7 with
  | none => .error (.fatal, b.len)
  | some (words, _) => reserveWords b words

/-- The topology legality check of `pipeline_build_ia`
(`pipeline.c:61-119`): every enumerator maps to a hardware primitive
type; patch topology additionally requires a patch-control-point count
in 1..32. -/
def pipeline_build_ia_check (info : CreateInfo) : Bool :=
  match info.ia.topology with
  | .patch =>
    decide (1 ≤ info.tess.patchControlPoints ∧ info.tess.patchControlPoints ≤ 32)
  | _ => true

/-- The finished pipeline object: the state `pipeline_build_all` and
`pipeline_rs_state` retain from the normalized descriptor
(`pipeline.c:583-634`, `pipeline.c:131-138`). -/
structure PipeObj where
  active : ActiveShaders
  topology : XglTopology
  primitive_restart : Bool
  primitive_restart_index : Nat
  vb_count : Nat
  depthClipEnable : Bool
  rasterizerDiscardEnable : Bool
  pointSizeBits : Nat
  db_format : Nat
  cb_state : CbState
  tess_state : TessState
deriving DecidableEq, Repr

/-- Embedding of `pipeline_build_all` (`pipeline.c:583-634`): shader
resolution, the vertex-binding/attribute count check against
`ARRAY_SIZE(pipeline->vb)` (an external constant, the `maxVb`
parameter), vertex-element encoding, then the generation branch (newer:
URB, push constants, and the GS/HS/TE/DS stubs of 0, 7, 4 and 6 words;
older: URB only), then input-assembly and rasterizer state capture.
Errors carry the number of command words emitted when they occur. -/
def pipeline_build_all (gen7 is75 : Bool) (gt maxVb : Nat) (info : CreateInfo)
    (b0 : CmdBuf) : Except (BuildFail × Nat) (PipeObj × CmdBuf) := do
  let active := pipeline_build_shaders info
  if info.vi.bindingCount > maxVb ∨ info.vi.attrs.length > maxVb then
    throw (.user .errorBadPipelineData, b0.len)
  let b1 ← pipeline_build_vertex_elements_step info active b0
  let b2 ←
    if gen7 then do
      let b ← urb_gen7_step is75 gt info active b1
      let b ← push_const_step b
      -- pipeline_build_gs emits nothing (pipeline.c:524-528)
      let b ← reserveWords b 7   -- pipeline_build_hs (pipeline.c:530-547)
      let b ← reserveWords b 4   -- pipeline_build_te (pipeline.c:549-563)
      let b ← reserveWords b 6   -- pipeline_build_ds (pipeline.c:565-581)
      pure b
    else
      urb_gen6_step gt info active b1
  if pipeline_build_ia_check info = false then
    throw (.user .errorBadPipelineData, b2.len)
  pure ({ active := active,
          topology := info.ia.topology,
          primitive_restart := info.ia.primitiveRestartEnable,
          primitive_restart_index :=
            if info.ia.primitiveRestartEnable then info.ia.primitiveRestartIndex else 0,
          vb_count := info.vi.bindingCount,
          depthClipEnable := info.rs.depthClipEnable,
          rasterizerDiscardEnable := info.rs.rasterizerDiscardEnable,
          pointSizeBits := info.rs.pointSizeBits,
          db_format := info.db.format,
          cb_state := info.cb,
          tess_state := info.tess }, b2)

/-- Embedding of `graphics_pipeline_create` (`pipeline.c:727-760`):
descriptor assembly runs before the pipeline object or any command
exists (its failure therefore reports 0 emitted words), then
`pipeline_build_all`, then `pipeline_validate` as the final gate; on
any failure no pipeline object is returned (the source destroys the
partially built object before reporting the error). -/
def graphics_pipeline_create (gen7 is75 : Bool) (gt maxVb cap : Nat)
    (chain : List Fragment) : Except (BuildFail × Nat) (PipeObj × CmdBuf) :=
  match pipeline_create_info_init chain with
  | .error e => .error (.user e, 0)
  | .ok info =>
    match pipeline_build_all gen7 is75 gt maxVb info { cap := cap, len := 0 } with
    | .error f => .error f
    | .ok (p, b) =>
      match pipeline_validate p.active p.topology with
      | .success => .ok (p, b)
      | e => .error (.user e, b.len)

/-- The C8 scenario chain: graphics header, input assembly with
triangle-list topology, a vertex shader (out = 4), a fragment shader
(in = 4, out = 1), a vertex-input fragment with 0 bindings and 0
attributes, and additionally a compute-shader stage fragment. -/
def compute_stage_chain : List Fragment :=
  [ .graphics,
    .ia { topology := .triangleList },
    .shader { stage := .vertex, shader := 1, outCount := 4 },
    .shader { stage := .fragment, shader := 1, inCount := 4, outCount := 1 },
    .vi {},
    .shader { stage := .compute, shader := 1 } ]

/-- C8: for every GPU generation, GT tier, binding-array size and
command-buffer capacity, building the scenario chain extended with a
compute-shader fragment fails with the malformed-pipeline-data error,
zero command words have been emitted at the moment of failure (the
compute stage enumerator is rejected by the descriptor assembler,
before any encoder runs), and no pipeline object is returned. -/
theorem compute_stage_fragment_fails_early (gen7 is75 : Bool) (gt maxVb cap : Nat) :
    graphics_pipeline_create gen7 is75 gt maxVb cap compute_stage_chain =
      .error (.user .errorBadPipelineData, 0) := rfl

/-- Reinterpretation of an unsigned 64-bit value as a signed 64-bit
value (the conversion performed by `ns = timeout * 1000 * 1000 * 1000`
assigning a `uint64_t` product into an `int64_t`). -/
def toInt64 (n : Nat) : Int :=
  if n % 2 ^ 64 < 2 ^ 63 then ((n % 2 ^ 64 : Nat) : Int)
  else ((n % 2 ^ 64 : Nat) : Int) - 2 ^ 64

/-- Embedding of the per-fence timeout conversion of
`intelWaitForFences` (`fence.c:131-134`): seconds are converted to
nanoseconds when `timeout <= INT64_MAX / 1000 / 1000 / 1000`, otherwise
the "infinite" sentinel −1 is used. -/
def intelWaitForFences_timeout_ns (timeout : Nat) : Int :=
  if timeout ≤ (2 ^ 63 - 1) / 1000 / 1000 / 1000 then
    toInt64 (timeout * 1000 * 1000 * 1000)
  else -1

/-- C9: for every unsigned 64-bit timeout `t`, the per-fence nanosecond
timeout equals `t * 10^9` when `t ≤ INT64_MAX / 10^9` and is the
infinite sentinel −1 for every larger `t`, and in both cases the value
fits a signed 64-bit integer (the conversion never overflows). -/
theorem wait_for_fences_timeout_conversion (t : Nat) (h : t < 2 ^ 64) :
    (t ≤ (2 ^ 63 - 1) / 1000000000 →
      intelWaitForFences_timeout_ns t = ((t : Nat) : Int) * 1000000000) ∧
    ((2 ^ 63 - 1) / 1000000000 < t → intelWaitForFences_timeout_ns t = -1) ∧
    (-(2 ^ 63) ≤ intelWaitForFences_timeout_ns t ∧
      intelWaitForFences_timeout_ns t ≤ 2 ^ 63 - 1) := by
  have hb : (2 ^ 63 - 1) / 1000 / 1000 / 1000 = 9223372036 := by norm_num
  have hb2 : ((2 : Nat) ^ 63 - 1) / 1000000000 = 9223372036 := by norm_num
  refine ⟨fun ht => ?_, fun ht => ?_, ?_, ?_⟩
  · unfold intelWaitForFences_timeout_ns toInt64
    rw [if_pos (by omega), Nat.mod_eq_of_lt (by omega), if_pos (by omega)]
    push_cast
    ring
  · unfold intelWaitForFences_timeout_ns
    rw [if_neg (by omega)]
  · unfold intelWaitForFences_timeout_ns toInt64
    split
    next hc =>
      rw [Nat.mod_eq_of_lt (by omega), if_pos (by omega)]
      omega
    next hc => norm_num
  · unfold intelWaitForFences_timeout_ns toInt64
    split
    next hc =>
      rw [Nat.mod_eq_of_lt (by omega), if_pos (by omega)]
      omega
    next hc => norm_num

/-- C9 witness: a 3-second timeout converts to 3 × 10^9 ns, via
`wait_for_fences_timeout_conversion`. -/
theorem wait_for_fences_timeout_conversion_witness :
    intelWaitForFences_timeout_ns 3 = ((3 : Nat) : Int) * 1000000000 :=
  (wait_for_fences_timeout_conversion 3 (by norm_num)).1 (by norm_num)

end IntelPipeline
